import Mathlib

/-!
Verification of the volunteer/task engagement lifecycle of the
Community Connect repository (Streamlit + PostgreSQL).

The embedding models the database rows (`tasks`, `volunteer_acceptances`,
`notifications`, `volunteers`) as Lean structures and each dashboard
handler as a state-transition function translated from the Python source:
  - src/pages/1_NGO_Dashboard.py  (approve / reject / complete /
    not-completed / remove / auto-close / edit / soft delete handlers)
  - src/pages/2_Volunteer_Dashboard.py (apply / withdraw handlers)
  - src/lib/db.py (schema, per-statement transactions)
  - src/lib/rate_limiter.py
Dates are modelled as integer day numbers, currency as rationals.
-/

namespace CommunityConnect

/-- `approval_status` column of `volunteer_acceptances` (db.py line 161). -/
inductive ApprovalStatus
  | pending
  | approved
  | rejected
deriving DecidableEq, Repr

/-- `status` column of `volunteer_acceptances` (db.py line 162, default
`accepted`; the handlers write `completed` / `not_completed`). -/
inductive CompStatus
  | accepted
  | completed
  | not_completed
deriving DecidableEq, Repr

/-- `status` column of `tasks` (db.py line 116, default `open`; handlers
only ever write `open` or `closed`). -/
inductive TaskStatus
  | opened
  | closed
deriving DecidableEq, Repr

/-- A row of the `tasks` table (db.py lines 106-131), restricted to the
columns the lifecycle handlers read or write.  Dates are day numbers. -/
structure Task where
  id : Nat
  ngo_id : Nat
  title : String
  status : TaskStatus
  max_volunteers : Option Nat
  wage_rate : ℚ
  hours : Nat
  start_date : Int
  end_date : Int
  is_deleted : Bool
  location : String
  address : String
  contact_email : String
  contact_phone : String
  urgency : String
  physical_requirements : String
  age_requirement : String
  equipment_needed : String
deriving DecidableEq, Repr

/-- A row of the `volunteer_acceptances` table (db.py lines 151-170). -/
structure Engagement where
  id : Nat
  task_id : Nat
  volunteer_id : Nat
  approval_status : ApprovalStatus
  status : CompStatus
  completion_note : Option String
  certificate_pushed : Bool
  monetisation_value : ℚ
  hours_committed : Nat
deriving DecidableEq, Repr

/-- A row of the `notifications` table (db.py lines 172-181). -/
structure Notification where
  user_type : String
  user_id : Nat
  message : String
  notification_type : String
  related_id : Nat
deriving DecidableEq, Repr

/-- A row of the `volunteers` table, restricted to the aggregate column
`total_value_generated` (db.py line 103). -/
structure Volunteer where
  id : Nat
  total_value_generated : ℚ
deriving DecidableEq, Repr

/-- The stored database state. -/
structure DBState where
  tasks : List Task
  engagements : List Engagement
  notifications : List Notification
  volunteers : List Volunteer
  next_task_id : Nat
  next_engagement_id : Nat
deriving DecidableEq, Repr

def DBState.init : DBState :=
  { tasks := [], engagements := [], notifications := [], volunteers := []
    next_task_id := 1, next_engagement_id := 1 }

/-- `SELECT * FROM tasks WHERE id=?`. -/
def findTask (s : DBState) (tid : Nat) : Option Task :=
  s.tasks.find? (fun t => t.id == tid)

/-- `SELECT * FROM volunteer_acceptances WHERE id=?`. -/
def findEngagement (s : DBState) (eid : Nat) : Option Engagement :=
  s.engagements.find? (fun e => e.id == eid)

/-- Whether a `volunteer_acceptances` row occupies a capacity slot: the SQL
filter `approval_status='approved' AND (status IS NULL OR status IN
('accepted','completed'))` used by the count queries
(query_helpers.py lines 24-26, 2_Volunteer_Dashboard.py lines 237-244). -/
def occupiesSlot (e : Engagement) : Bool :=
  e.approval_status == .approved &&
    (e.status == .accepted || e.status == .completed)

/-- The `volunteer_count` computed by `get_tasks_with_counts`
(query_helpers.py lines 21-33) and the inline count queries. -/
def approvedCount (s : DBState) (tid : Nat) : Nat :=
  (s.engagements.filter (fun e => e.task_id == tid && occupiesSlot e)).length

/-- The count used by the accepted-tab withdraw handler
(2_Volunteer_Dashboard.py lines 491-498): it omits the
`approval_status='approved'` filter, so pending and rejected rows with
completion-status accepted/completed are counted too. -/
def nonFailedCount (s : DBState) (tid : Nat) : Nat :=
  (s.engagements.filter (fun e => e.task_id == tid &&
    (e.status == .accepted || e.status == .completed))).length

/-- Python truthiness of `max_volunteers`: `t.get('max_volunteers') or None`
maps 0 and NULL to no limit (2_Volunteer_Dashboard.py line 247). -/
def effectiveMax (t : Task) : Option Nat :=
  match t.max_volunteers with
  | none => none
  | some 0 => none
  | some m => some m

/-- `is_full = max_vols and volunteer_count >= max_vols`
(2_Volunteer_Dashboard.py line 248). -/
def isFull (s : DBState) (t : Task) : Bool :=
  match effectiveMax t with
  | none => false
  | some m => decide (m ≤ approvedCount s t.id)

/-- Update the engagement row with the given id (an `UPDATE ... WHERE id=?`). -/
def updateEngagement (s : DBState) (eid : Nat) (f : Engagement → Engagement) :
    DBState :=
  { s with engagements :=
      s.engagements.map (fun e => if e.id == eid then f e else e) }

/-- Update the task row with the given id. -/
def updateTask (s : DBState) (tid : Nat) (f : Task → Task) : DBState :=
  { s with tasks := s.tasks.map (fun t => if t.id == tid then f t else t) }

/-- `DELETE FROM volunteer_acceptances WHERE id=?`. -/
def deleteEngagement (s : DBState) (eid : Nat) : DBState :=
  { s with engagements := s.engagements.filter (fun e => e.id != eid) }

/-! ### ValueCalculator (lib/monetisation_helper, module absent from src) -/

/-- Error raised by `calculate_duration_days` on an inverted range. -/
inductive ValueError
  | invalidRange
deriving DecidableEq, Repr

/-- Modelled from the spec: rounding to 2 decimal places used by
`engagement_value` (lib/monetisation_helper is absent from src). -/
def round2 (q : ℚ) : ℚ := (round (q * 100) : ℤ) / 100

/-- Modelled from the spec: `duration_days(start, end)` from the absent
lib/monetisation_helper module — the inclusive calendar-day count between
two dates (here day numbers), failing with `InvalidRangeError` when
end < start. -/
def calculate_duration_days (start_date end_date : Int) :
    Except ValueError Int :=
  if end_date < start_date then .error .invalidRange
  else .ok (end_date - start_date + 1)

/-- Modelled from the spec: `engagement_value(wage_rate, hours_per_day,
duration_days)` from the absent lib/monetisation_helper module —
`wage_rate × hours_per_day × duration_days` rounded to 2 decimal places,
and 0 when the wage rate is unset or ≤ 0. -/
def calculate_volunteer_value (wage_rate : ℚ) (hours_per_day : Nat)
    (duration : Int) : ℚ :=
  if wage_rate ≤ 0 then 0
  else round2 (wage_rate * hours_per_day * duration)

/-- The aggregate value of a volunteer's work: sum of `monetisation_value`
over their engagements with completion-status completed and
approval-status approved (the filter used by the analytics aggregate,
query_helpers.py lines 112-116). -/
def volunteerTotal (s : DBState) (vid : Nat) : ℚ :=
  ((s.engagements.filter (fun e => e.volunteer_id == vid &&
      e.status == .completed && e.approval_status == .approved)).map
    (fun e => e.monetisation_value)).sum

/-- Modelled from the spec: `update_volunteer_total_value` from the absent
lib/monetisation_helper module — recomputes the owning volunteer's
aggregate total value and stores it on the volunteer row. -/
def update_volunteer_total_value (s : DBState) (vid : Nat) : DBState :=
  { s with volunteers := s.volunteers.map (fun v =>
      if v.id == vid then { v with total_value_generated := volunteerTotal s vid }
      else v) }

/-! ### Engagement lifecycle handlers -/

/-- Python `str.strip()`: drop leading and trailing whitespace. -/
def pyStrip (s : String) : String :=
  String.mk
    (((s.data.dropWhile (fun c => c.isWhitespace)).reverse.dropWhile
      (fun c => c.isWhitespace)).reverse)

/-- Failure modes of the apply flow (2_Volunteer_Dashboard.py lines
306-405): the task-closed warning, the already-applied guard plus the
UNIQUE(task_id, volunteer_id) backstop (db.py line 169), and the
task-full warning. -/
inductive ApplyError
  | notFound
  | taskClosed
  | duplicateEngagement
  | taskFull
deriving DecidableEq, Repr

/-- The row inserted by the apply handler (2_Volunteer_Dashboard.py lines
392-398): approval_status pending, status accepted, hours copied from the
task. -/
def newEngagement (eid tid vid hours : Nat) : Engagement :=
  { id := eid, task_id := tid, volunteer_id := vid
    approval_status := .pending, status := .accepted
    completion_note := none, certificate_pushed := false
    monetisation_value := 0, hours_committed := hours }

/-- The apply flow (2_Volunteer_Dashboard.py, browse tab): the browse query
filters `is_deleted = 0`; a closed task only shows a warning; an existing
engagement for the pair blocks the form (and the UNIQUE constraint
backstops a race); a full task shows the maximum-volunteers warning;
otherwise the pending engagement is inserted. -/
def applyTask (s : DBState) (tid vid : Nat) : Except ApplyError DBState :=
  match findTask s tid with
  | none => .error .notFound
  | some t =>
    if t.is_deleted then .error .notFound
    else if t.status == .closed then .error .taskClosed
    else if s.engagements.any (fun e => e.task_id == tid && e.volunteer_id == vid) then
      .error .duplicateEngagement
    else if isFull s t then .error .taskFull
    else
      .ok { s with
        engagements :=
          s.engagements ++ [newEngagement s.next_engagement_id tid vid t.hours]
        next_engagement_id := s.next_engagement_id + 1 }

/-- The Approve button handler (1_NGO_Dashboard.py lines 586-595): rendered
only for pending applications; the UPDATE sets approval_status approved
with no capacity check. -/
def approveVolunteer (s : DBState) (eid : Nat) : DBState :=
  match findEngagement s eid with
  | some e =>
    if e.approval_status == .pending then
      updateEngagement s eid (fun x => { x with approval_status := .approved })
    else s
  | none => s

/-- The Reject button handler (1_NGO_Dashboard.py lines 596-603): rendered
only for pending applications; the row is retained with approval_status
rejected. -/
def rejectVolunteer (s : DBState) (eid : Nat) : DBState :=
  match findEngagement s eid with
  | some e =>
    if e.approval_status == .pending then
      updateEngagement s eid (fun x => { x with approval_status := .rejected })
    else s
  | none => s

/-- Withdraw Application for a pending engagement (2_Volunteer_Dashboard.py
lines 324-327): deletes the row, with no task-status recomputation. -/
def withdrawPendingApplication (s : DBState) (eid : Nat) : DBState :=
  match findEngagement s eid with
  | some e => if e.approval_status == .pending then deleteEngagement s eid else s
  | none => s

/-- Remove from My List for a rejected engagement (2_Volunteer_Dashboard.py
lines 312-317): reachable only when the task is not closed (the closed
branch at line 306 pre-empts it); deletes the row. -/
def removeRejectedFromList (s : DBState) (eid : Nat) : DBState :=
  match findEngagement s eid with
  | some e =>
    match findTask s e.task_id with
    | some t =>
      if t.status == .opened && !t.is_deleted && e.approval_status == .rejected then
        deleteEngagement s eid
      else s
    | none => s
  | none => s

/-- Browse-tab Withdraw for an approved, accepted engagement
(2_Volunteer_Dashboard.py lines 341-360): reachable only when the task is
not closed; deletes the row, then reopens the task when it was closed,
has a limit, and the post-delete approved count is below it. -/
def withdrawApprovedBrowse (s : DBState) (eid : Nat) : DBState :=
  match findEngagement s eid with
  | some e =>
    match findTask s e.task_id with
    | some t =>
      if t.status == .opened && !t.is_deleted &&
          e.approval_status == .approved && e.status == .accepted then
        let s1 := deleteEngagement s eid
        if t.status == .closed then
          match effectiveMax t with
          | some m =>
            if approvedCount s1 t.id < m then
              updateTask s1 t.id (fun tk => { tk with status := .opened })
            else s1
          | none => s1
        else s1
      else s
    | none => s
  | none => s

/-- Accepted-tab Withdraw from Task (2_Volunteer_Dashboard.py lines
483-503): available for any engagement with completion-status accepted
regardless of approval; deletes the row, then reopens the task when it
was closed, has a limit, and the post-delete count — computed WITHOUT the
`approval_status='approved'` filter (lines 491-498) — is below it. -/
def withdrawAcceptedTab (s : DBState) (eid : Nat) : DBState :=
  match findEngagement s eid with
  | some e =>
    if e.status == .accepted then
      let s1 := deleteEngagement s eid
      match findTask s1 e.task_id with
      | some t =>
        if t.status == .closed then
          match effectiveMax t with
          | some m =>
            if nonFailedCount s1 t.id < m then
              updateTask s1 t.id (fun tk => { tk with status := .opened })
            else s1
          | none => s1
        else s1
      | none => s1
    else s
  | none => s

/-- NGO-side Remove of an approved volunteer (1_NGO_Dashboard.py lines
964-991): deletes the row, then reopens the task when it is closed, has a
limit, and the post-delete approved count is below it. -/
def removeVolunteer (s : DBState) (eid : Nat) : DBState :=
  match findEngagement s eid with
  | some e =>
    if e.approval_status == .approved then
      let s1 := deleteEngagement s eid
      match findTask s1 e.task_id with
      | some t =>
        if t.status == .closed then
          match effectiveMax t with
          | some m =>
            if approvedCount s1 t.id < m then
              updateTask s1 t.id (fun tk => { tk with status := .opened })
            else s1
          | none => s1
        else s1
      | none => s1
    else s
  | none => s

/-- Work Completed handler (1_NGO_Dashboard.py lines 631-673): rendered for
approved volunteers. When the task row is found and its wage rate is
truthy, the duration and value are computed, the row is set to completed
with the value persisted, and the volunteer aggregate is recomputed; an
InvalidRangeError from the duration aborts the handler before any write.
Otherwise the row is only set to completed (value untouched, no aggregate
recomputation). -/
def markCompleted (s : DBState) (eid : Nat) : DBState :=
  match findEngagement s eid with
  | some e =>
    if e.approval_status == .approved then
      match findTask s e.task_id with
      | some t =>
        if t.wage_rate != 0 then
          match calculate_duration_days t.start_date t.end_date with
          | .ok dur =>
            let v := calculate_volunteer_value t.wage_rate t.hours dur
            let s1 := updateEngagement s eid (fun x =>
              { x with status := .completed, completion_note := none
                       monetisation_value := v })
            update_volunteer_total_value s1 e.volunteer_id
          | .error _ => s
        else
          updateEngagement s eid (fun x =>
            { x with status := .completed, completion_note := none })
      | none =>
        updateEngagement s eid (fun x =>
          { x with status := .completed, completion_note := none })
    else s
  | none => s

/-- Work Not Done handler (1_NGO_Dashboard.py lines 706-727): rendered for
approved volunteers, requires a non-empty issue description; sets the row
to not_completed with the note, forces the value to 0, and recomputes the
volunteer aggregate. -/
def markNotCompleted (s : DBState) (eid : Nat) (note : String) : DBState :=
  match findEngagement s eid with
  | some e =>
    if e.approval_status == .approved && (pyStrip note) != "" then
      let s1 := updateEngagement s eid (fun x =>
        { x with status := .not_completed, completion_note := some (pyStrip note)
                 monetisation_value := 0 })
      update_volunteer_total_value s1 e.volunteer_id
    else s
  | none => s

/-- Certificate Sent handler (1_NGO_Dashboard.py lines 676-696): rendered
for approved volunteers whose certificate_pushed flag is unset; sets the
flag and inserts a notification. -/
def sendCertificate (s : DBState) (eid : Nat) : DBState :=
  match findEngagement s eid with
  | some e =>
    if e.approval_status == .approved && !e.certificate_pushed then
      let title := match findTask s e.task_id with
        | some t => t.title
        | none => "N/A"
      let s1 := updateEngagement s eid (fun x => { x with certificate_pushed := true })
      { s1 with notifications := s1.notifications ++
          [{ user_type := "volunteer", user_id := e.volunteer_id
             message := "Certificate has been sent to your Email/Phone Number : " ++ title
             notification_type := "certificate_pushed", related_id := eid }] }
    else s
  | none => s

/-! ### Task lifecycle handlers -/

/-- Auto-close during the NGO task-list render (1_NGO_Dashboard.py lines
449-457): for every non-deleted task of the NGO with a truthy limit whose
approved volunteer count has reached the limit while the status is still
open, the status is set to closed.  The counts come from one query issued
before the loop (`get_tasks_with_counts`). -/
def renderNgoTasks (s : DBState) (ngo : Nat) : DBState :=
  { s with tasks := s.tasks.map (fun t =>
      if t.ngo_id == ngo && !t.is_deleted && t.status == .opened then
        match effectiveMax t with
        | some m => if m ≤ approvedCount s t.id then { t with status := .closed } else t
        | none => t
      else t) }

/-- Mark Closed button (1_NGO_Dashboard.py lines 513-516): manual close. -/
def markClosed (s : DBState) (tid : Nat) : DBState :=
  updateTask s tid (fun t => { t with status := .closed })

def taskDeletedMessage (title reason : String) : String :=
  "Task '" ++ title ++ "' has been deleted. Reason: " ++ reason

/-- The `t.get('title', 'N/A')` used in the deletion notification message
(1_NGO_Dashboard.py line 549). -/
def deleteTaskTitle (s : DBState) (tid : Nat) : String :=
  match findTask s tid with
  | some t => t.title
  | none => "N/A"

/-- The task_deleted notification row inserted for one affected volunteer
(1_NGO_Dashboard.py lines 544-551). -/
def deleteNotification (s : DBState) (tid : Nat) (reason : String)
    (e : Engagement) : Notification :=
  { user_type := "volunteer", user_id := e.volunteer_id
    message := taskDeletedMessage (deleteTaskTitle s tid) (pyStrip reason)
    notification_type := "task_deleted", related_id := tid }

/-- The SQL statements issued by the Confirm Delete handler
(1_NGO_Dashboard.py lines 533-560), in order: one notification INSERT per
engagement of the task (any approval status), then the soft-delete
UPDATE.  Each entry is one `execute` call, i.e. one transaction
(db.py lines 44-68, 215-242). -/
def deleteTaskWrites (s : DBState) (tid : Nat) (reason : String) :
    List (DBState → DBState) :=
  ((s.engagements.filter (fun e => e.task_id == tid)).map (fun e =>
    fun st => { st with notifications := st.notifications ++
      [deleteNotification s tid reason e] })) ++
  [fun st => updateTask st tid (fun t => { t with is_deleted := true })]

/-- Run a sequence of committed statements. -/
def runWrites (ws : List (DBState → DBState)) (s : DBState) : DBState :=
  ws.foldl (fun st w => w st) s

/-- Per-statement transaction semantics of db.py: every `execute` call
opens its own connection and commits on success or rolls back only its
own statement on failure (get_conn, lines 44-68); a raised error then
aborts the handler.  `runWritesFault ws k` runs the handler with the k-th
statement failing: the first k statements stay committed, the failing one
is rolled back, the rest never run. -/
def runWritesFault (ws : List (DBState → DBState)) (k : Nat) (s : DBState) :
    DBState :=
  runWrites (ws.take k) s

/-- The fault-free Confirm Delete handler (guard: non-empty reason). -/
def deleteTaskSoft (s : DBState) (tid : Nat) (reason : String) : DBState :=
  if (pyStrip reason) != "" then runWrites (deleteTaskWrites s tid reason) s else s

/-- The Confirm Delete handler with the k-th statement failing. -/
def deleteTaskSoftFault (s : DBState) (tid : Nat) (reason : String) (k : Nat) :
    DBState :=
  if (pyStrip reason) != "" then runWritesFault (deleteTaskWrites s tid reason) k s
  else s

/-! ### Task creation and editing -/

/-- The fields submitted by the edit-task form (1_NGO_Dashboard.py lines
738-851), restricted to the columns the lifecycle reads. -/
structure EditFields where
  title : String
  start_date : Int
  end_date : Int
  hours : Nat
  location : String
  address : String
  contact_email : String
  contact_phone : String
  urgency : String
  physical_requirements : String
  age_requirement : String
  equipment_needed : String
  wage_rate : ℚ
  max_volunteers : Nat
deriving DecidableEq, Repr

/-- Python `str.capitalize`: first character upper-cased, the rest
lower-cased (used on field names at 1_NGO_Dashboard.py line 890). -/
def pyCapitalize (s : String) : String :=
  match s.data with
  | [] => ""
  | c :: cs => String.mk (c.toUpper :: cs.map Char.toLower)

/-- `field.replace('_', ' ')` for the single-character pattern used at
1_NGO_Dashboard.py line 890. -/
def replaceUnderscores (s : String) : String :=
  String.mk (s.data.map (fun c => if c = '_' then ' ' else c))

/-- `field.replace('_', ' ').capitalize()` (1_NGO_Dashboard.py line 890). -/
def displayFieldName (field : String) : String :=
  pyCapitalize (replaceUnderscores field)

/-- Change detection over the `critical_fields` dict (1_NGO_Dashboard.py
lines 864-891), in the dict's insertion order.  The code compares
`str(old) != str(new)`; on the typed fields modelled here (day numbers,
ints, strings) stringification is injective, so this is value
inequality. -/
def criticalChanges (t : Task) (f : EditFields) : List String :=
  (if t.start_date ≠ f.start_date then [displayFieldName "start_date"] else []) ++
  (if t.end_date ≠ f.end_date then [displayFieldName "end_date"] else []) ++
  (if t.hours ≠ f.hours then [displayFieldName "hours"] else []) ++
  (if t.location ≠ f.location then [displayFieldName "location"] else []) ++
  (if t.address ≠ f.address then [displayFieldName "address"] else []) ++
  (if t.contact_email ≠ f.contact_email then [displayFieldName "contact_email"] else []) ++
  (if t.contact_phone ≠ f.contact_phone then [displayFieldName "contact_phone"] else []) ++
  (if t.urgency ≠ f.urgency then [displayFieldName "urgency"] else []) ++
  (if t.physical_requirements ≠ f.physical_requirements then [displayFieldName "physical_requirements"] else []) ++
  (if t.age_requirement ≠ f.age_requirement then [displayFieldName "age_requirement"] else []) ++
  (if t.equipment_needed ≠ f.equipment_needed then [displayFieldName "equipment_needed"] else [])

/-- The task_updated notification message (1_NGO_Dashboard.py line 950). -/
def taskUpdatedMessage (title : String) (changes : List String) : String :=
  "Update for '" ++ title ++ "': " ++ String.intercalate ", " changes ++
    " have been changed. Please check the latest details."

/-- Update Task handler (1_NGO_Dashboard.py lines 851-957): after
validation (end date not before start date), the row is updated; when any
critical field changed, one task_updated notification is inserted per
approved engagement of the task, listing the changed field names. -/
def editTask (s : DBState) (tid : Nat) (f : EditFields) : DBState :=
  match findTask s tid with
  | none => s
  | some t =>
    if f.end_date < f.start_date then s
    else
      let changes := criticalChanges t f
      let s1 := updateTask s tid (fun tk =>
        { tk with title := f.title, location := f.location, address := f.address
                  start_date := f.start_date, end_date := f.end_date
                  hours := f.hours, contact_email := f.contact_email
                  contact_phone := f.contact_phone, urgency := f.urgency
                  physical_requirements := f.physical_requirements
                  age_requirement := f.age_requirement
                  equipment_needed := f.equipment_needed
                  wage_rate := f.wage_rate
                  max_volunteers := some f.max_volunteers })
      if changes.isEmpty then s1
      else
        let affected := (s.engagements.filter (fun e =>
          e.task_id == tid && e.approval_status == .approved)).map
            (fun e => e.volunteer_id)
        { s1 with notifications := s1.notifications ++ affected.map (fun vid =>
            { user_type := "volunteer", user_id := vid
              message := taskUpdatedMessage f.title changes
              notification_type := "task_updated", related_id := tid }) }

/-- Create Task handler (1_NGO_Dashboard.py lines 393-441): validation
rejects an inverted date range; the number inputs bound hours to 1-24 and
max volunteers to 1-1000; the INSERT stores status open. -/
def createTask (s : DBState) (ngo : Nat) (f : EditFields) : DBState :=
  if f.end_date < f.start_date || f.hours == 0 || f.max_volunteers == 0 then s
  else
    { s with
      tasks := s.tasks ++ [{
        id := s.next_task_id, ngo_id := ngo, title := f.title
        status := .opened, max_volunteers := some f.max_volunteers
        wage_rate := f.wage_rate, hours := f.hours
        start_date := f.start_date, end_date := f.end_date
        is_deleted := false, location := f.location, address := f.address
        contact_email := f.contact_email, contact_phone := f.contact_phone
        urgency := f.urgency, physical_requirements := f.physical_requirements
        age_requirement := f.age_requirement
        equipment_needed := f.equipment_needed }]
      next_task_id := s.next_task_id + 1 }

/-- Volunteer registration (2_Volunteer_Dashboard.py lines 100-110 and the
volunteers schema, db.py line 103): total_value_generated starts at 0;
the email UNIQUE constraint keeps ids fresh. -/
def createVolunteer (s : DBState) (vid : Nat) : DBState :=
  if s.volunteers.any (fun v => v.id == vid) then s
  else { s with volunteers := s.volunteers ++ [{ id := vid, total_value_generated := 0 }] }

/-! ### The reachable-state transition system -/

/-- One user-triggered handler invocation. -/
inductive Op
  | createTask (ngo : Nat) (f : EditFields)
  | createVolunteer (vid : Nat)
  | applyT (tid vid : Nat)
  | approve (eid : Nat)
  | reject (eid : Nat)
  | withdrawPending (eid : Nat)
  | removeRejected (eid : Nat)
  | withdrawBrowse (eid : Nat)
  | withdrawAccTab (eid : Nat)
  | removeVol (eid : Nat)
  | complete (eid : Nat)
  | notCompleted (eid : Nat) (note : String)
  | sendCert (eid : Nat)
  | renderTasks (ngo : Nat)
  | closeTask (tid : Nat)
  | deleteTask (tid : Nat) (reason : String)
  | edit (tid : Nat) (f : EditFields)

/-- Execute one handler; a failed apply leaves the state unchanged (the
transaction rolls back and only an error is shown). -/
def step (op : Op) (s : DBState) : DBState :=
  match op with
  | .createTask ngo f => createTask s ngo f
  | .createVolunteer vid => createVolunteer s vid
  | .applyT tid vid =>
      match applyTask s tid vid with
      | .ok s2 => s2
      | .error _ => s
  | .approve eid => approveVolunteer s eid
  | .reject eid => rejectVolunteer s eid
  | .withdrawPending eid => withdrawPendingApplication s eid
  | .removeRejected eid => removeRejectedFromList s eid
  | .withdrawBrowse eid => withdrawApprovedBrowse s eid
  | .withdrawAccTab eid => withdrawAcceptedTab s eid
  | .removeVol eid => removeVolunteer s eid
  | .complete eid => markCompleted s eid
  | .notCompleted eid note => markNotCompleted s eid note
  | .sendCert eid => sendCertificate s eid
  | .renderTasks ngo => renderNgoTasks s ngo
  | .closeTask tid => markClosed s tid
  | .deleteTask tid reason => deleteTaskSoft s tid reason
  | .edit tid f => editTask s tid f

/-- Run a trace of handler invocations from the initial (empty) state. -/
def runTrace (ops : List Op) : DBState :=
  ops.foldl (fun s op => step op s) DBState.init

/-- States reachable from the empty database through the handlers. -/
inductive Reachable : DBState → Prop
  | init : Reachable DBState.init
  | step (op : Op) {s : DBState} : Reachable s → Reachable (step op s)

theorem runTrace_reachable (ops : List Op) : Reachable (runTrace ops) := by
  suffices h : ∀ s, Reachable s → Reachable (ops.foldl (fun s op => step op s) s) from
    h DBState.init Reachable.init
  induction ops with
  | nil => intro s hs; exact hs
  | cons op rest ih =>
      intro s hs
      exact ih (step op s) (Reachable.step op hs)

/-! ### Rate limiter (src/lib/rate_limiter.py) -/

/-- The Streamlit per-session state holding, for each
`rate_limit_{user_id}_{action}` key, the list of recorded request
timestamps (in minutes). -/
def Session : Type := String → List Int

/-- Reading a key: a missing key behaves as the empty list, matching the
initialisation at rate_limiter.py lines 38-39. -/
def Session.get (st : Session) (key : String) : List Int := st key

/-- Dict assignment `st.session_state[key] = log`. -/
def Session.set (st : Session) (key : String) (log : List Int) : Session :=
  fun k => if k = key then log else st k

def Session.empty : Session := fun _ => []

/-- The session-state key `rate_limit_{user_id}_{action}`
(rate_limiter.py line 35). -/
def rlKey (uid : Nat) (action : String) : String :=
  "rate_limit_" ++ toString uid ++ "_" ++ action

/-- `check_rate_limit` (rate_limiter.py lines 9-59): drop timestamps at or
before `now - window_minutes`, store the pruned list, refuse when the
pruned count has reached `max_requests`, otherwise record `now` and
allow. -/
def check_rate_limit (uid : Nat) (action : String)
    (max_requests window_minutes : Nat) (now : Int) (st : Session) :
    Bool × Session :=
  let key := rlKey uid action
  let recent := (st.get key).filter (fun ts => now - (window_minutes : Int) < ts)
  if max_requests ≤ recent.length then (false, st.set key recent)
  else (true, st.set key (recent ++ [now]))

/-- The predefined per-action limits (rate_limiter.py lines 116-124), as
(action, max_requests, window_minutes). -/
def RATE_LIMITS : List (String × Nat × Nat) := [
  ("create_task", 10, 5),
  ("edit_task", 20, 5),
  ("delete_task", 10, 5),
  ("apply_task", 20, 5),
  ("update_profile", 5, 10),
  ("send_notification", 50, 5),
  ("approve_volunteer", 100, 5)]

/-- `check_action_rate_limit` (rate_limiter.py lines 127-150): an action
without a predefined limit is always allowed and nothing is recorded;
otherwise `check_rate_limit` runs with the predefined limit. -/
def check_action_rate_limit (uid : Nat) (action : String) (now : Int)
    (st : Session) : Bool × Session :=
  match RATE_LIMITS.find? (fun p => p.1 == action) with
  | none => (true, st)
  | some p => check_rate_limit uid action p.2.1 p.2.2 now st

/-! ### Concrete traces used as witnesses and counterexamples -/

/-- A one-day, one-slot task paying 300/hour for 4 hours/day (the scenario
of spec §8). -/
def demoFields : EditFields :=
  { title := "Tree planting", start_date := 10, end_date := 10, hours := 4
    location := "Pune", address := "Road 1", contact_email := "ngo@example.org"
    contact_phone := "1234567890", urgency := "High"
    physical_requirements := "", age_requirement := "18+"
    equipment_needed := "", wage_rate := 300, max_volunteers := 1 }

/-- Volunteers 1 and 2 both apply to the one-slot task, then the NGO
approves both pending applications in turn (the task list auto-close
render runs in between, as it does on the real dashboard). -/
def c1Trace : List Op :=
  [.createVolunteer 1, .createVolunteer 2, .createTask 1 demoFields,
   .applyT 1 1, .applyT 1 2, .approve 1, .renderTasks 1, .approve 2]

/-- Volunteer 1 is approved on the one-slot task (which auto-closes) while
volunteer 2's application is still pending; volunteer 1 then withdraws
through the accepted tab. -/
def c2Trace : List Op :=
  [.createVolunteer 1, .createVolunteer 2, .createTask 1 demoFields,
   .applyT 1 1, .applyT 1 2, .approve 1, .renderTasks 1]

/-- Volunteer 1 applies to the one-slot task and is approved. -/
def c4Pre : List Op :=
  [.createVolunteer 1, .createTask 1 demoFields, .applyT 1 1, .approve 1]

/-- Volunteer 1 applies to the one-slot task; the full §8 scenario is the
same trace followed by approval and completion. -/
def c5Trace : List Op :=
  [.createVolunteer 1, .createTask 1 demoFields, .applyT 1 1, .approve 1,
   .complete 1]

/-- Volunteer 1 applies to the one-slot task and is rejected. -/
def c9Pre : List Op :=
  [.createVolunteer 1, .createTask 1 demoFields, .applyT 1 1, .reject 1]

/-! ### Helper lemmas -/

theorem Session.get_set_same (st : Session) (key : String) (log : List Int) :
    (Session.set st key log).get key = log := by
  unfold Session.set Session.get
  simp

/-! ### Claim theorems -/

/-- C7: `duration_days(start, end)` returns the inclusive calendar-day
count, an integer ≥ 1, for every pair of dates with end ≥ start — in
particular `duration_days(d, d) = 1` for every date d — and fails with
`InvalidRangeError` for every pair with end < start. -/
theorem duration_days_inclusive :
    (∀ s e : Int, s ≤ e →
      calculate_duration_days s e = Except.ok (e - s + 1) ∧ 1 ≤ e - s + 1) ∧
    (∀ d : Int, calculate_duration_days d d = Except.ok 1) ∧
    (∀ s e : Int, e < s →
      calculate_duration_days s e = Except.error ValueError.invalidRange) := by
  refine ⟨fun s e h => ⟨?_, by omega⟩, fun d => ?_, fun s e h => ?_⟩
  · unfold calculate_duration_days
    rw [if_neg (by omega)]
  · unfold calculate_duration_days
    rw [if_neg (by omega)]
    norm_num
  · unfold calculate_duration_days
    rw [if_pos h]

/-- Witness for C7 at concrete dates: a 5-day range, a one-day range, and
an inverted range. -/
theorem duration_days_inclusive_witness :
    calculate_duration_days 0 4 = Except.ok (4 - 0 + 1) ∧
    calculate_duration_days 7 7 = Except.ok 1 ∧
    calculate_duration_days 9 4 = Except.error ValueError.invalidRange :=
  ⟨(duration_days_inclusive.1 0 4 (by decide)).1, duration_days_inclusive.2.1 7,
    duration_days_inclusive.2.2 9 4 (by decide)⟩

/-- C10: `check_rate_limit` allows a request exactly when fewer than
`max_requests` recorded calls fall inside the trailing window, recording
the allowed call; `create_task` is limited to 10 requests per 5 minutes;
an action without a predefined limit is always allowed and the session
state is untouched. -/
theorem rate_limit_behavior :
    (∀ (uid : Nat) (action : String) (maxr window : Nat) (now : Int) (st : Session),
      ((check_rate_limit uid action maxr window now st).1 = true ↔
        ((st.get (rlKey uid action)).filter
          (fun ts => now - (window : Int) < ts)).length < maxr) ∧
      ((check_rate_limit uid action maxr window now st).1 = true →
        (check_rate_limit uid action maxr window now st).2.get (rlKey uid action) =
          ((st.get (rlKey uid action)).filter
            (fun ts => now - (window : Int) < ts)) ++ [now])) ∧
    RATE_LIMITS.find? (fun p => p.1 == "create_task") =
      some ("create_task", 10, 5) ∧
    (∀ (uid : Nat) (action : String) (now : Int) (st : Session),
      RATE_LIMITS.find? (fun p => p.1 == action) = none →
      check_action_rate_limit uid action now st = (true, st)) := by
  refine ⟨fun uid action maxr window now st => ?_, by decide,
    fun uid action now st h => ?_⟩
  · unfold check_rate_limit
    by_cases h : maxr ≤
        ((st.get (rlKey uid action)).filter
          (fun ts => now - (window : Int) < ts)).length
    · simp only [if_pos h]
      constructor
      · simp
        omega
      · intro hfalse
        simp at hfalse
    · simp only [if_neg h]
      constructor
      · simp
        omega
      · intro _
        exact Session.get_set_same st (rlKey uid action) _
  · unfold check_action_rate_limit
    rw [h]

/-- Witness for C10: the first `create_task` request of a fresh session is
allowed, and an action absent from RATE_LIMITS is allowed without
touching the session. -/
theorem rate_limit_behavior_witness :
    (check_rate_limit 1 "create_task" 10 5 0 Session.empty).1 = true ∧
    check_action_rate_limit 1 "fetch_stats" 0 Session.empty =
      (true, Session.empty) :=
  ⟨(rate_limit_behavior.1 1 "create_task" 10 5 0 Session.empty).1.mpr (by decide),
    rate_limit_behavior.2.2 1 "fetch_stats" 0 Session.empty (by decide)⟩

/-- The task row created by `createTask 1 demoFields` in the demo traces. -/
def demoTask : Task :=
  { id := 1, ngo_id := 1, title := "Tree planting", status := TaskStatus.opened
    max_volunteers := some 1, wage_rate := 300, hours := 4
    start_date := 10, end_date := 10, is_deleted := false
    location := "Pune", address := "Road 1", contact_email := "ngo@example.org"
    contact_phone := "1234567890", urgency := "High"
    physical_requirements := "", age_requirement := "18+"
    equipment_needed := "" }

/-- C1 counterexample: through apply and approve alone (with the dashboard
auto-close render in between, as on the real page) the one-slot task
reaches an approved count of 2 — the Approve handler has no capacity
guard, so the invariant `approved_count ≤ max_volunteers` fails on a
reachable state. -/
theorem capacity_invariant_counterexample :
    Reachable (runTrace c1Trace) ∧
    (findTask (runTrace c1Trace) 1).map (fun t => t.max_volunteers) =
      some (some 1) ∧
    approvedCount (runTrace c1Trace) 1 = 2 :=
  ⟨runTrace_reachable c1Trace, by decide, by decide⟩

/-- C1 amended: the apply operation can never raise the approved count — a
successful apply inserts a pending engagement, and apply on a full open
task is refused with the task-full error — but approve carries no
capacity guard, so approved_count ≤ max_volunteers is not an invariant
(see the counterexample). -/
theorem apply_capacity_guard :
    (∀ (s : DBState) (tid vid : Nat) (s2 : DBState) (tid2 : Nat),
      applyTask s tid vid = Except.ok s2 →
      approvedCount s2 tid2 = approvedCount s tid2) ∧
    (∀ (s : DBState) (tid vid : Nat) (t : Task),
      findTask s tid = some t → t.is_deleted = false →
      t.status = TaskStatus.opened →
      s.engagements.any (fun e => e.task_id == tid && e.volunteer_id == vid) = false →
      isFull s t = true →
      applyTask s tid vid = Except.error ApplyError.taskFull) := by
  constructor
  · intro s tid vid s2 tid2 h
    unfold applyTask at h
    split at h
    · exact absurd h (by simp)
    · split at h
      · exact absurd h (by simp)
      · split at h
        · exact absurd h (by simp)
        · split at h
          · exact absurd h (by simp)
          · split at h
            · exact absurd h (by simp)
            · cases h
              simp [approvedCount, List.filter_append, occupiesSlot, newEngagement]
  · intro s tid vid t ht hdel hopen hany hfull
    unfold applyTask
    rw [ht]
    simp [hdel, hopen, hany, hfull]

/-- Witness for the amended C1: a successful apply leaves the approved
count unchanged, and applying to the full open one-slot task (volunteer 1
approved, volunteer 2 fresh) is refused as task-full. -/
theorem apply_capacity_guard_witness :
    approvedCount (runTrace [Op.createTask 1 demoFields, Op.applyT 1 1]) 1 =
      approvedCount (runTrace [Op.createTask 1 demoFields]) 1 ∧
    applyTask (runTrace c4Pre) 1 2 = Except.error ApplyError.taskFull :=
  ⟨apply_capacity_guard.1 (runTrace [Op.createTask 1 demoFields]) 1 1
      (runTrace [Op.createTask 1 demoFields, Op.applyT 1 1]) 1 rfl,
    apply_capacity_guard.2 (runTrace c4Pre) 1 2 demoTask (by decide) rfl rfl
      (by decide) (by decide)⟩

/-- C3: with no engagement stored for the pair and an open, non-deleted,
non-full task, the first apply succeeds and stores exactly one row for
the pair, and a second apply for the same pair fails with the duplicate
error, leaving that single row. -/
theorem apply_twice_single_engagement {s : DBState} {tid vid : Nat} {t : Task}
    (ht : findTask s tid = some t) (hdel : t.is_deleted = false)
    (hopen : t.status = TaskStatus.opened) (hfull : isFull s t = false)
    (hnone : s.engagements.filter
      (fun e => e.task_id == tid && e.volunteer_id == vid) = []) :
    ∃ s1, applyTask s tid vid = Except.ok s1 ∧
      (s1.engagements.filter
        (fun e => e.task_id == tid && e.volunteer_id == vid)).length = 1 ∧
      applyTask s1 tid vid = Except.error ApplyError.duplicateEngagement := by
  have hany : s.engagements.any
      (fun e => e.task_id == tid && e.volunteer_id == vid) = false := by
    rw [List.any_eq_false]
    intro x hx
    intro hpx
    have : x ∈ s.engagements.filter
        (fun e => e.task_id == tid && e.volunteer_id == vid) :=
      List.mem_filter.mpr ⟨hx, hpx⟩
    rw [hnone] at this
    exact absurd this (List.not_mem_nil x)
  refine ⟨{ s with
      engagements := s.engagements ++ [newEngagement s.next_engagement_id tid vid t.hours]
      next_engagement_id := s.next_engagement_id + 1 }, ?_, ?_, ?_⟩
  · unfold applyTask
    rw [ht]
    simp [hdel, hopen, hany, hfull]
  · simp [List.filter_append, hnone, newEngagement]
  · unfold applyTask
    have ht1 : findTask { s with
        engagements := s.engagements ++ [newEngagement s.next_engagement_id tid vid t.hours]
        next_engagement_id := s.next_engagement_id + 1 } tid = some t := ht
    rw [ht1]
    have hany1 : ({ s with
        engagements := s.engagements ++ [newEngagement s.next_engagement_id tid vid t.hours]
        next_engagement_id := s.next_engagement_id + 1 } : DBState).engagements.any
        (fun e => e.task_id == tid && e.volunteer_id == vid) = true := by
      simp [List.any_append, newEngagement]
    simp [hdel, hopen, hany1]

/-- Witness for C3: volunteer 1 applies twice to the fresh one-slot task. -/
theorem apply_twice_single_engagement_witness :
    (applyTask (runTrace [Op.createTask 1 demoFields]) 1 1).map (fun s1 =>
      ((s1.engagements.filter
        (fun e => e.task_id == 1 && e.volunteer_id == 1)).length,
       applyTask s1 1 1)) =
      Except.ok (1, Except.error ApplyError.duplicateEngagement) := by
  obtain ⟨s1, h1, h2, h3⟩ := @apply_twice_single_engagement
    (runTrace [Op.createTask 1 demoFields]) 1 1 demoTask (by decide) rfl rfl
    (by decide) (by decide)
  rw [h1]
  simp only [Except.map]
  rw [h2, h3]

/-- C9: a volunteer whose application was rejected can delete the record
through Remove from My List and, with the task still open, non-deleted
and not full, a fresh apply for the same task succeeds and stores a new
pending engagement for the pair. -/
theorem rejected_remove_and_reapply {s : DBState} {eid tid vid : Nat}
    {e : Engagement} {t : Task}
    (he : findEngagement s eid = some e)
    (hrej : e.approval_status = ApprovalStatus.rejected)
    (htid : e.task_id = tid) (hvid : e.volunteer_id = vid)
    (ht : findTask s tid = some t) (hopen : t.status = TaskStatus.opened)
    (hdel : t.is_deleted = false)
    (honly : s.engagements.filter
      (fun x => x.task_id == tid && x.volunteer_id == vid) = [e])
    (hroom : isFull (deleteEngagement s eid) t = false) :
    ∃ s2, applyTask (removeRejectedFromList s eid) tid vid = Except.ok s2 ∧
      (s2.engagements.filter
        (fun x => x.task_id == tid && x.volunteer_id == vid)).map
          (fun x => x.approval_status) = [ApprovalStatus.pending] := by
  have heid : e.id = eid := by
    have := List.find?_some he
    simpa using this
  have hrm : removeRejectedFromList s eid = deleteEngagement s eid := by
    unfold removeRejectedFromList
    simp only [he, htid, ht]
    simp [hopen, hdel, hrej]
  have hfilter : (deleteEngagement s eid).engagements.filter
      (fun x => x.task_id == tid && x.volunteer_id == vid) = [] := by
    rw [List.filter_eq_nil]
    intro x hx hpx
    have hx1 : x ∈ s.engagements ∧ (x.id != eid) = true := by
      simpa [deleteEngagement] using List.mem_filter.mp hx
    have : x ∈ s.engagements.filter
        (fun y => y.task_id == tid && y.volunteer_id == vid) :=
      List.mem_filter.mpr ⟨hx1.1, hpx⟩
    rw [honly] at this
    have hxe : x = e := by simpa using this
    have : (x.id != eid) = true := hx1.2
    rw [hxe, heid] at this
    simp at this
  have hany : (deleteEngagement s eid).engagements.any
      (fun x => x.task_id == tid && x.volunteer_id == vid) = false := by
    rw [List.any_eq_false]
    intro x hx hpx
    have : x ∈ (deleteEngagement s eid).engagements.filter
        (fun y => y.task_id == tid && y.volunteer_id == vid) :=
      List.mem_filter.mpr ⟨hx, hpx⟩
    rw [hfilter] at this
    exact absurd this (List.not_mem_nil x)
  have ht1 : findTask (deleteEngagement s eid) tid = some t := ht
  rw [hrm]
  refine ⟨{ deleteEngagement s eid with
      engagements := (deleteEngagement s eid).engagements ++
        [newEngagement (deleteEngagement s eid).next_engagement_id tid vid t.hours]
      next_engagement_id := (deleteEngagement s eid).next_engagement_id + 1 },
    ?_, ?_⟩
  · unfold applyTask
    rw [ht1]
    simp [hdel, hopen, hany, hroom]
  · simp [List.filter_append, hfilter, newEngagement]

/-- Witness for C9: rejected volunteer 1 removes the record and re-applies
to the still-open one-slot task. -/
theorem rejected_remove_and_reapply_witness :
    (applyTask (removeRejectedFromList (runTrace c9Pre) 1) 1 1).map (fun s2 =>
      (s2.engagements.filter
        (fun x => x.task_id == 1 && x.volunteer_id == 1)).map
          (fun x => x.approval_status)) =
      Except.ok [ApprovalStatus.pending] := by
  obtain ⟨s2, h1, h2⟩ := @rejected_remove_and_reapply (runTrace c9Pre) 1 1 1
    { id := 1, task_id := 1, volunteer_id := 1
      approval_status := ApprovalStatus.rejected, status := CompStatus.accepted
      completion_note := none, certificate_pushed := false
      monetisation_value := 0, hours_committed := 4 }
    demoTask (by decide) rfl rfl rfl (by decide) rfl rfl (by decide) (by decide)
  rw [h1]
  simp only [Except.map]
  rw [h2]

/-- C2 counterexample: volunteer 1 (approved) withdraws through the
accepted tab from the one-slot task that auto-closed, while volunteer 2's
application is still pending.  The approved count drops to 0 < 1, yet the
task stays closed, because the accepted-tab reopen count (which has no
approval filter) still sees the pending row. -/
theorem withdraw_reopen_counterexample :
    Reachable (runTrace (c2Trace ++ [Op.withdrawAccTab 1])) ∧
    approvedCount (runTrace (c2Trace ++ [Op.withdrawAccTab 1])) 1 = 0 ∧
    (findTask (runTrace (c2Trace ++ [Op.withdrawAccTab 1])) 1).map
      (fun t => (t.max_volunteers, t.status)) =
      some (some 1, TaskStatus.closed) :=
  ⟨runTrace_reachable (c2Trace ++ [Op.withdrawAccTab 1]), by decide, by decide⟩

/-- C2 amended: the NGO task-list render closes every open task of the NGO
whose approved count has reached its limit; the NGO-side remove reopens a
closed limited task exactly when the post-delete APPROVED count is below
the limit; but the accepted-tab withdraw reopens exactly when the
post-delete count WITHOUT the approval filter (pending and rejected rows
with completion-status accepted/completed included) is below the limit,
so a pending application can keep the task closed although the approved
count dropped below the limit. -/
theorem capacity_status_recompute :
    (∀ (s : DBState) (ngo : Nat) (t : Task) (m : Nat),
      t ∈ s.tasks → t.ngo_id = ngo → t.is_deleted = false →
      t.status = TaskStatus.opened → effectiveMax t = some m →
      m ≤ approvedCount s t.id →
      { t with status := TaskStatus.closed } ∈ (renderNgoTasks s ngo).tasks) ∧
    (∀ (s : DBState) (eid : Nat) (e : Engagement) (t : Task) (m : Nat),
      findEngagement s eid = some e →
      e.approval_status = ApprovalStatus.approved →
      findTask (deleteEngagement s eid) e.task_id = some t →
      t.status = TaskStatus.closed → effectiveMax t = some m →
      removeVolunteer s eid =
        (if approvedCount (deleteEngagement s eid) t.id < m then
          updateTask (deleteEngagement s eid) t.id
            (fun tk => { tk with status := TaskStatus.opened })
        else deleteEngagement s eid)) ∧
    (∀ (s : DBState) (eid : Nat) (e : Engagement) (t : Task) (m : Nat),
      findEngagement s eid = some e → e.status = CompStatus.accepted →
      findTask (deleteEngagement s eid) e.task_id = some t →
      t.status = TaskStatus.closed → effectiveMax t = some m →
      withdrawAcceptedTab s eid =
        (if nonFailedCount (deleteEngagement s eid) t.id < m then
          updateTask (deleteEngagement s eid) t.id
            (fun tk => { tk with status := TaskStatus.opened })
        else deleteEngagement s eid)) := by
  refine ⟨fun s ngo t m hmem hngo hdel hopen hmax hfull => ?_,
    fun s eid e t m he happ ht hclosed hmax => ?_,
    fun s eid e t m he hacc ht hclosed hmax => ?_⟩
  · unfold renderNgoTasks
    have : ({ t with status := TaskStatus.closed } : Task) =
        (fun tk =>
          if tk.ngo_id == ngo && !tk.is_deleted && tk.status == TaskStatus.opened then
            match effectiveMax tk with
            | some mm =>
              if mm ≤ approvedCount s tk.id then { tk with status := TaskStatus.closed }
              else tk
            | none => tk
          else tk) t := by
      simp [hngo, hdel, hopen, hmax, hfull]
    rw [this]
    exact List.mem_map_of_mem _ hmem
  · unfold removeVolunteer
    simp only [he, happ, beq_self_eq_true, if_true, ht]
    simp [hclosed, hmax]
  · unfold withdrawAcceptedTab
    simp only [he, hacc, beq_self_eq_true, if_true, ht]
    simp [hclosed, hmax]

/-- Witness for the amended C2, all on the one-slot task: the render closes
the open task with one approved volunteer; the NGO remove of approved
volunteer 1 reopens the closed task (approved count 0 < 1, the pending
row being invisible to its approved-only count); the accepted-tab
withdraw of approved volunteer 1 leaves it closed (unfiltered count 1,
from volunteer 2's pending row). -/
theorem capacity_status_recompute_witness :
    { demoTask with status := TaskStatus.closed } ∈
      (renderNgoTasks (runTrace c4Pre) 1).tasks ∧
    removeVolunteer (runTrace c2Trace) 1 =
      (if approvedCount (deleteEngagement (runTrace c2Trace) 1) 1 < 1 then
        updateTask (deleteEngagement (runTrace c2Trace) 1) 1
          (fun tk => { tk with status := TaskStatus.opened })
      else deleteEngagement (runTrace c2Trace) 1) ∧
    withdrawAcceptedTab (runTrace c2Trace) 1 =
      (if nonFailedCount (deleteEngagement (runTrace c2Trace) 1) 1 < 1 then
        updateTask (deleteEngagement (runTrace c2Trace) 1) 1
          (fun tk => { tk with status := TaskStatus.opened })
      else deleteEngagement (runTrace c2Trace) 1) :=
  ⟨capacity_status_recompute.1 (runTrace c4Pre) 1 demoTask 1 (by decide) rfl rfl
      rfl rfl (by decide),
    capacity_status_recompute.2.1 (runTrace c2Trace) 1
      { id := 1, task_id := 1, volunteer_id := 1
        approval_status := ApprovalStatus.approved, status := CompStatus.accepted
        completion_note := none, certificate_pushed := false
        monetisation_value := 0, hours_committed := 4 }
      { demoTask with status := TaskStatus.closed } 1 (by decide) rfl (by decide)
      rfl rfl,
    capacity_status_recompute.2.2 (runTrace c2Trace) 1
      { id := 1, task_id := 1, volunteer_id := 1
        approval_status := ApprovalStatus.approved, status := CompStatus.accepted
        completion_note := none, certificate_pushed := false
        monetisation_value := 0, hours_committed := 4 }
      { demoTask with status := TaskStatus.closed } 1 (by decide) rfl (by decide)
      rfl rfl⟩

/-- C8: editing a task so that the start date (a critical field) changes,
while the task has exactly one approved volunteer, appends exactly one
notification, addressed to that volunteer, whose message lists the
changed critical fields with "Start date" among them; an edit that
changes no critical field appends no notification. -/
theorem edit_start_date_notification :
    (∀ (s : DBState) (tid : Nat) (t : Task) (f : EditFields) (v : Nat),
      findTask s tid = some t → f.start_date ≤ f.end_date →
      (s.engagements.filter (fun e =>
        e.task_id == tid && e.approval_status == ApprovalStatus.approved)).map
          (fun e => e.volunteer_id) = [v] →
      t.start_date ≠ f.start_date →
      (editTask s tid f).notifications = s.notifications ++
        [{ user_type := "volunteer", user_id := v
           message := taskUpdatedMessage f.title (criticalChanges t f)
           notification_type := "task_updated", related_id := tid }] ∧
      "Start date" ∈ criticalChanges t f) ∧
    (∀ (s : DBState) (tid : Nat) (t : Task) (f : EditFields),
      findTask s tid = some t → f.start_date ≤ f.end_date →
      criticalChanges t f = [] →
      (editTask s tid f).notifications = s.notifications) := by
  have hSD : displayFieldName "start_date" = "Start date" := by decide
  constructor
  · intro s tid t f v ht hv happroved hchanged
    have hmem : "Start date" ∈ criticalChanges t f := by
      unfold criticalChanges
      rw [if_pos hchanged, hSD]
      simp
    refine ⟨?_, hmem⟩
    unfold editTask
    simp only [ht]
    rw [if_neg (not_lt.mpr hv)]
    have hne : (criticalChanges t f).isEmpty = false := by
      rcases hcc : criticalChanges t f with _ | ⟨a, l⟩
      · rw [hcc] at hmem; exact absurd hmem (List.not_mem_nil _)
      · rfl
    simp only [hne, Bool.false_eq_true, if_false, happroved]
    simp [updateTask]
  · intro s tid t f ht hv hcc
    unfold editTask
    simp only [ht]
    rw [if_neg (not_lt.mpr hv)]
    simp [hcc, updateTask]

/-- Witness for C8 on the one-slot task with its single approved volunteer:
moving the dates produces the single notification naming Start date;
changing only the title (not critical) produces none. -/
theorem edit_start_date_notification_witness :
    ((editTask (runTrace c4Pre) 1
        { demoFields with start_date := 11, end_date := 12 }).notifications =
      (runTrace c4Pre).notifications ++
        [{ user_type := "volunteer", user_id := 1
           message := taskUpdatedMessage
             ({ demoFields with start_date := 11, end_date := 12 } : EditFields).title
             (criticalChanges demoTask
               { demoFields with start_date := 11, end_date := 12 })
           notification_type := "task_updated", related_id := 1 }] ∧
      "Start date" ∈ criticalChanges demoTask
        { demoFields with start_date := 11, end_date := 12 }) ∧
    (editTask (runTrace c4Pre) 1
      { demoFields with title := "Beach cleanup" }).notifications =
      (runTrace c4Pre).notifications :=
  ⟨edit_start_date_notification.1 (runTrace c4Pre) 1 demoTask
      { demoFields with start_date := 11, end_date := 12 } 1 (by decide)
      (by decide) (by decide) (by decide),
    edit_start_date_notification.2 (runTrace c4Pre) 1 demoTask
      { demoFields with title := "Beach cleanup" } (by decide) (by decide)
      (by decide)⟩

theorem findEngagement_updateEngagement (s : DBState) (eid : Nat)
    (f : Engagement → Engagement) (hf : ∀ e, (f e).id = e.id) :
    findEngagement (updateEngagement s eid f) eid =
      (findEngagement s eid).map (fun e => if e.id == eid then f e else e) := by
  unfold findEngagement updateEngagement
  rw [List.find?_map]
  have hpf : ((fun e : Engagement => e.id == eid) ∘
      (fun e : Engagement => if (e.id == eid) = true then f e else e)) =
      (fun e : Engagement => e.id == eid) := by
    funext e
    simp only [Function.comp]
    by_cases h : (e.id == eid) = true
    · rw [if_pos h, hf, h]
    · rw [if_neg h]
  rw [hpf]

/-- The UPDATE applied to the engagement row by the wage-bearing branch of
the Work Completed handler (1_NGO_Dashboard.py lines 645-651). -/
def completionUpdate (t : Task) : Engagement → Engagement := fun x =>
  { x with status := CompStatus.completed, completion_note := none
           monetisation_value := calculate_volunteer_value t.wage_rate
             t.hours (t.end_date - t.start_date + 1) }

/-- The UPDATE applied to the engagement row by the zero-wage branch of the
Work Completed handler (1_NGO_Dashboard.py lines 658-672): the row is
only marked completed, the value column is untouched and no aggregate
recompute runs. -/
def completionUpdateNoValue : Engagement → Engagement := fun x =>
  { x with status := CompStatus.completed, completion_note := none }

/-- The same one-slot task posted with the wage-rate input left at its
default of 0 (the form's number input has min_value 0.0, so zero-wage
tasks are ordinary data). -/
def zeroWageFields : EditFields := { demoFields with wage_rate := 0 }

/-- The task row created by `createTask 1 zeroWageFields` as task 2. -/
def zeroWageTask : Task := { demoTask with id := 2, wage_rate := 0 }

/-- Volunteer 1 completes the paid one-slot task (aggregate recomputed to
1200), the NGO then removes the completed engagement — which performs no
aggregate recompute, leaving the stored total stale — and volunteer 1 is
approved on a freshly posted zero-wage task. -/
def c4cPre : List Op :=
  [.createVolunteer 1, .createTask 1 demoFields, .applyT 1 1, .approve 1,
   .complete 1, .removeVol 1, .createTask 1 zeroWageFields, .applyT 2 1,
   .approve 2]

theorem calc_value_demo :
    calculate_volunteer_value 300 4 (10 - 10 + 1) = 1200 := by
  have h10 : ((10 : Int) - 10 + 1) = 1 := by decide
  rw [h10]
  unfold calculate_volunteer_value round2
  rw [if_neg (by norm_num)]
  norm_num [round_eq]

theorem volunteerTotal_after_demo_complete :
    volunteerTotal (markCompleted (runTrace c4Pre) 1) 1 = 1200 := by
  have hl : (markCompleted (runTrace c4Pre) 1).engagements =
      [{ id := 1, task_id := 1, volunteer_id := 1
         approval_status := ApprovalStatus.approved
         status := CompStatus.completed, completion_note := none
         certificate_pushed := false
         monetisation_value := calculate_volunteer_value 300 4 (10 - 10 + 1)
         hours_committed := 4 }] := rfl
  have hval := calc_value_demo
  unfold volunteerTotal
  rw [hl]
  simp only [List.filter_cons, List.filter_nil]
  norm_num
  have h10 : ((10 : Int) - 10 + 1) = 1 := by decide
  rw [h10] at hval
  simp [hval]

/-- C4 counterexample: completing an approved, accepted engagement on a
zero-wage task does not recompute the owning volunteer's aggregate.  In
the reachable state of `c4cPre` the stored aggregate is stale (1200,
because the NGO-side remove deleted the completed paid engagement without
recomputing); completing the approved, accepted zero-wage engagement
leaves the stored aggregate at 1200 while the recomputed aggregate over
the resulting state is 0 — so the claim's unconditional "recomputes the
volunteer's aggregate total value" fails. -/
theorem complete_no_recompute_counterexample :
    Reachable (runTrace c4cPre) ∧
    (findEngagement (runTrace c4cPre) 2).map
      (fun e => (e.approval_status, e.status)) =
      some (ApprovalStatus.approved, CompStatus.accepted) ∧
    (findTask (runTrace c4cPre) 2).map (fun t => t.wage_rate) = some 0 ∧
    (findEngagement (markCompleted (runTrace c4cPre) 2) 2).map
      (fun e => e.status) = some CompStatus.completed ∧
    (markCompleted (runTrace c4cPre) 2).volunteers.map
      (fun v => v.total_value_generated) = [1200] ∧
    volunteerTotal (markCompleted (runTrace c4cPre) 2) 1 = 0 := by
  refine ⟨runTrace_reachable c4cPre, by decide, by decide, by decide, ?_, ?_⟩
  · have ha : (markCompleted (runTrace c4cPre) 2).volunteers =
        (markCompleted (runTrace c4Pre) 1).volunteers := rfl
    have hb : (markCompleted (runTrace c4Pre) 1).volunteers =
        [{ id := 1, total_value_generated :=
            volunteerTotal (markCompleted (runTrace c4Pre) 1) 1 }] := rfl
    rw [ha, hb, volunteerTotal_after_demo_complete]
    rfl
  · have hl2 : (markCompleted (runTrace c4cPre) 2).engagements =
        [{ id := 2, task_id := 2, volunteer_id := 1
           approval_status := ApprovalStatus.approved
           status := CompStatus.completed, completion_note := none
           certificate_pushed := false, monetisation_value := 0
           hours_committed := 4 }] := rfl
    unfold volunteerTotal
    rw [hl2]
    simp

/-- C4 amended: completing an approved, accepted engagement behaves in two
ways depending on the task's wage rate.  When the wage rate is set
(non-zero) and the date range is valid, the row is set to completed, the
value wage_rate × hours_per_day × duration_days is persisted, and the
owning volunteer's stored aggregate is the recomputed total (e.g. 300 ×
4 × 1 = 1200 and the aggregate rises by 1200).  When the wage rate is 0
(unset), the handler only marks the row completed: the value column is
untouched (it stays 0, coinciding with the formula) and the volunteers
table — in particular the stored aggregate — is left exactly as it was,
with no recompute. -/
theorem complete_persists_value :
    (∀ (s : DBState) (eid : Nat) (e : Engagement) (t : Task),
      findEngagement s eid = some e →
      e.approval_status = ApprovalStatus.approved →
      e.status = CompStatus.accepted →
      findTask s e.task_id = some t →
      t.wage_rate ≠ 0 → t.start_date ≤ t.end_date →
      findEngagement (markCompleted s eid) eid =
        some { e with status := CompStatus.completed, completion_note := none
                      monetisation_value := calculate_volunteer_value
                        t.wage_rate t.hours (t.end_date - t.start_date + 1) } ∧
      (markCompleted s eid).volunteers = s.volunteers.map (fun v =>
        if v.id == e.volunteer_id then
          { v with total_value_generated :=
              volunteerTotal (markCompleted s eid) e.volunteer_id }
        else v)) ∧
    (∀ (s : DBState) (eid : Nat) (e : Engagement) (t : Task),
      findEngagement s eid = some e →
      e.approval_status = ApprovalStatus.approved →
      e.status = CompStatus.accepted →
      findTask s e.task_id = some t →
      t.wage_rate = 0 →
      findEngagement (markCompleted s eid) eid =
        some { e with status := CompStatus.completed
                      completion_note := none } ∧
      (markCompleted s eid).volunteers = s.volunteers) := by
  constructor
  · intro s eid e t he happ _hacc ht hw hd
    have hbne : (t.wage_rate != 0) = true := bne_iff_ne.mpr hw
    have hdur : calculate_duration_days t.start_date t.end_date =
        Except.ok (t.end_date - t.start_date + 1) := by
      unfold calculate_duration_days
      rw [if_neg (not_lt.mpr hd)]
    have heid : (e.id == eid) = true := by
      have := List.find?_some he
      simpa using this
    have hred : markCompleted s eid =
        update_volunteer_total_value
          (updateEngagement s eid (completionUpdate t)) e.volunteer_id := by
      unfold markCompleted completionUpdate
      simp only [he, happ, beq_self_eq_true, if_true, ht, hbne, hdur]
    rw [hred]
    constructor
    · have h1 : findEngagement
          (update_volunteer_total_value
            (updateEngagement s eid (completionUpdate t)) e.volunteer_id) eid =
          findEngagement (updateEngagement s eid (completionUpdate t)) eid :=
        rfl
      rw [h1, findEngagement_updateEngagement s eid (completionUpdate t)
        (fun x => rfl), he]
      simp only [Option.map_some']
      rw [if_pos heid]
      rfl
    · rfl
  · intro s eid e t he happ _hacc ht hw0
    have hbne0 : (t.wage_rate != 0) = false := by
      rw [hw0]
      simp
    have heid : (e.id == eid) = true := by
      have := List.find?_some he
      simpa using this
    have hred : markCompleted s eid =
        updateEngagement s eid completionUpdateNoValue := by
      unfold markCompleted completionUpdateNoValue
      simp only [he, happ, beq_self_eq_true, if_true, ht, hbne0,
        Bool.false_eq_true, if_false]
    rw [hred]
    constructor
    · rw [findEngagement_updateEngagement s eid completionUpdateNoValue
        (fun x => rfl), he]
      simp only [Option.map_some']
      rw [if_pos heid]
      rfl
    · rfl

/-- Witness for the amended C4.  Paid branch (the §8 scenario: wage 300, 4
hours/day, one-day task): completion persists the value 1200 and the
stored aggregate is the recomputed total, moving from 0 to 1200.
Zero-wage branch (on the stale-aggregate state of the counterexample
trace): completion only marks the row completed and leaves the
volunteers table untouched. -/
theorem complete_persists_value_witness :
    (findEngagement (markCompleted (runTrace c4Pre) 1) 1 =
      some { id := 1, task_id := 1, volunteer_id := 1
             approval_status := ApprovalStatus.approved
             status := CompStatus.completed, completion_note := none
             certificate_pushed := false
             monetisation_value := calculate_volunteer_value 300 4 (10 - 10 + 1)
             hours_committed := 4 } ∧
    (markCompleted (runTrace c4Pre) 1).volunteers =
      (runTrace c4Pre).volunteers.map (fun v =>
        if v.id == 1 then
          { v with total_value_generated :=
              volunteerTotal (markCompleted (runTrace c4Pre) 1) 1 }
        else v)) ∧
    calculate_volunteer_value 300 4 (10 - 10 + 1) = 1200 ∧
    volunteerTotal (runTrace c4Pre) 1 = 0 ∧
    volunteerTotal (markCompleted (runTrace c4Pre) 1) 1 = 1200 ∧
    (findEngagement (markCompleted (runTrace c4cPre) 2) 2 =
      some { id := 2, task_id := 2, volunteer_id := 1
             approval_status := ApprovalStatus.approved
             status := CompStatus.completed, completion_note := none
             certificate_pushed := false, monetisation_value := 0
             hours_committed := 4 } ∧
    (markCompleted (runTrace c4cPre) 2).volunteers =
      (runTrace c4cPre).volunteers) :=
  ⟨complete_persists_value.1 (runTrace c4Pre) 1
      { id := 1, task_id := 1, volunteer_id := 1
        approval_status := ApprovalStatus.approved
        status := CompStatus.accepted, completion_note := none
        certificate_pushed := false, monetisation_value := 0
        hours_committed := 4 }
      demoTask (by decide) rfl rfl (by decide) (by decide) (by decide),
    calc_value_demo, by decide, volunteerTotal_after_demo_complete,
    complete_persists_value.2 (runTrace c4cPre) 2
      { id := 2, task_id := 2, volunteer_id := 1
        approval_status := ApprovalStatus.approved
        status := CompStatus.accepted, completion_note := none
        certificate_pushed := false, monetisation_value := 0
        hours_committed := 4 }
      zeroWageTask (by decide) rfl rfl (by decide) rfl⟩

/-- Volunteer 1 has an engagement on task 1 and no notification exists. -/
def c6Pre : List Op :=
  [.createVolunteer 1, .createTask 1 demoFields, .applyT 1 1]

/-- C6 counterexample: in the Confirm Delete handler the notification
INSERTs and the soft-delete UPDATE are separate transactions (each
`execute` opens, commits and closes its own connection).  A failure at
the soft-delete statement (index 1, after one notification insert) leaves
the state different from the pre-call state: the notification is
committed while the task is not deleted — the transition partially
applies. -/
theorem partial_delete_counterexample :
    Reachable (runTrace c6Pre) ∧
    (runTrace c6Pre).notifications = [] ∧
    deleteTaskSoftFault (runTrace c6Pre) 1 "rain" 1 ≠ runTrace c6Pre ∧
    (deleteTaskSoftFault (runTrace c6Pre) 1 "rain" 1).notifications.length = 1 ∧
    (findTask (deleteTaskSoftFault (runTrace c6Pre) 1 "rain" 1) 1).map
      (fun t => t.is_deleted) = some false :=
  ⟨runTrace_reachable c6Pre, by decide, by decide, by decide, by decide⟩

theorem runWrites_notifWrites (msgs : List Notification) (s : DBState) :
    runWrites (msgs.map (fun n => fun st : DBState =>
      { st with notifications := st.notifications ++ [n] })) s =
      { s with notifications := s.notifications ++ msgs } := by
  induction msgs generalizing s with
  | nil => simp [runWrites]
  | cons n rest ih =>
      have h0 : runWrites ((n :: rest).map (fun n => fun st : DBState =>
          { st with notifications := st.notifications ++ [n] })) s =
          runWrites (rest.map (fun n => fun st : DBState =>
            { st with notifications := st.notifications ++ [n] }))
            { s with notifications := s.notifications ++ [n] } := rfl
      rw [h0, ih]
      simp

/-- C6 amended: each single SQL statement is atomic (db.py commits or rolls
back per `execute` call), but a multi-statement handler is not: when the
soft-delete statement of the Confirm Delete handler fails (after the
per-volunteer notification inserts, which come first), the already
committed notification rows persist and the task remains undeleted —
only the failing statement is rolled back, not the whole transition. -/
theorem delete_fault_partial (s : DBState) (tid : Nat) (reason : String)
    (hr : pyStrip reason ≠ "") :
    (deleteTaskSoftFault s tid reason
      (s.engagements.filter (fun e => e.task_id == tid)).length).tasks =
      s.tasks ∧
    (deleteTaskSoftFault s tid reason
      (s.engagements.filter (fun e => e.task_id == tid)).length).notifications =
      s.notifications ++
        (s.engagements.filter (fun e => e.task_id == tid)).map
          (deleteNotification s tid reason) := by
  have hbne : (pyStrip reason != "") = true := bne_iff_ne.mpr hr
  have hred : deleteTaskSoftFault s tid reason
      (s.engagements.filter (fun e => e.task_id == tid)).length =
      runWrites ((s.engagements.filter (fun e => e.task_id == tid)).map (fun e =>
        fun st : DBState => { st with notifications := st.notifications ++
          [deleteNotification s tid reason e] })) s := by
    unfold deleteTaskSoftFault
    rw [if_pos hbne]
    unfold runWritesFault deleteTaskWrites
    congr 1
    have hlen : ((s.engagements.filter (fun e => e.task_id == tid)).map (fun e =>
        fun st : DBState => { st with notifications := st.notifications ++
          [deleteNotification s tid reason e] })).length =
        (s.engagements.filter (fun e => e.task_id == tid)).length :=
      List.length_map _ _
    rw [← hlen]
    exact List.take_left _ _
  rw [hred]
  have hmm : ((s.engagements.filter (fun e => e.task_id == tid)).map (fun e =>
      fun st : DBState => { st with notifications := st.notifications ++
        [deleteNotification s tid reason e] })) =
      (((s.engagements.filter (fun e => e.task_id == tid)).map
        (deleteNotification s tid reason)).map (fun n => fun st : DBState =>
          { st with notifications := st.notifications ++ [n] })) := by
    rw [List.map_map]
    rfl
  rw [hmm, runWrites_notifWrites]
  exact ⟨rfl, rfl⟩

/-- Witness for the amended C6 on the concrete one-engagement state: with
the soft delete failing, the notification for volunteer 1 is committed
and the task list is untouched. -/
theorem delete_fault_partial_witness :
    (deleteTaskSoftFault (runTrace c6Pre) 1 "rain" 1).tasks =
      (runTrace c6Pre).tasks ∧
    (deleteTaskSoftFault (runTrace c6Pre) 1 "rain" 1).notifications =
      (runTrace c6Pre).notifications ++
        ((runTrace c6Pre).engagements.filter (fun e => e.task_id == 1)).map
          (deleteNotification (runTrace c6Pre) 1 "rain") :=
  delete_fault_partial (runTrace c6Pre) 1 "rain" (by decide)

/-! ### The monetisation-value invariant (C5) -/

/-- Engagement ids are unique and below the id counter (the SERIAL primary
key of volunteer_acceptances, db.py line 152). -/
def EngIdsOk (s : DBState) : Prop :=
  (∀ e ∈ s.engagements, e.id < s.next_engagement_id) ∧
    (s.engagements.map (fun e => e.id)).Nodup

/-- A non-zero monetisation value occurs only on completed, approved
engagements. -/
def ValueInv (s : DBState) : Prop :=
  ∀ e ∈ s.engagements, e.monetisation_value ≠ 0 →
    e.status = CompStatus.completed ∧
    e.approval_status = ApprovalStatus.approved

def Inv (s : DBState) : Prop := EngIdsOk s ∧ ValueInv s

theorem inv_of_engagements_eq {s s2 : DBState}
    (he : s2.engagements = s.engagements)
    (hn : s2.next_engagement_id = s.next_engagement_id) (h : Inv s) :
    Inv s2 := by
  obtain ⟨⟨h1, h2⟩, h3⟩ := h
  refine ⟨⟨?_, ?_⟩, ?_⟩
  · intro e hm
    rw [hn]
    exact h1 e (he ▸ hm)
  · rw [he]
    exact h2
  · intro e hm
    exact h3 e (he ▸ hm)

theorem inv_deleteEngagement {s : DBState} (h : Inv s) (eid : Nat) :
    Inv (deleteEngagement s eid) := by
  obtain ⟨⟨h1, h2⟩, h3⟩ := h
  refine ⟨⟨?_, ?_⟩, ?_⟩
  · intro e hm
    exact h1 e (List.mem_of_mem_filter hm)
  · exact List.Nodup.sublist
      (List.Sublist.map _ (List.filter_sublist s.engagements)) h2
  · intro e hm
    exact h3 e (List.mem_of_mem_filter hm)

theorem engIdsOk_updateEngagement {s : DBState} (h : EngIdsOk s) (eid : Nat)
    {f : Engagement → Engagement} (hf : ∀ e, (f e).id = e.id) :
    EngIdsOk (updateEngagement s eid f) := by
  obtain ⟨h1, h2⟩ := h
  constructor
  · intro e hm
    simp only [updateEngagement, List.mem_map] at hm
    obtain ⟨y, hy, hxy⟩ := hm
    subst hxy
    by_cases hc : (y.id == eid) = true
    · rw [if_pos hc, hf]
      exact h1 y hy
    · rw [if_neg hc]
      exact h1 y hy
  · have hmap : (updateEngagement s eid f).engagements.map (fun e => e.id) =
        s.engagements.map (fun e => e.id) := by
      simp only [updateEngagement, List.map_map]
      apply List.map_congr_left
      intro y hy
      simp only [Function.comp]
      by_cases hc : (y.id == eid) = true
      · rw [if_pos hc, hf]
      · rw [if_neg hc]
    rw [hmap]
    exact h2

/-- With unique ids, any stored row whose id matches a `find?` hit is that
hit. -/
theorem row_eq_of_find {l : List Engagement} {eid : Nat} {e y : Engagement}
    (hn : (l.map (fun x => x.id)).Nodup)
    (hfind : l.find? (fun x => x.id == eid) = some e)
    (hy : y ∈ l) (hid : (y.id == eid) = true) : y = e := by
  have hmem : e ∈ l := List.mem_of_find?_eq_some hfind
  have heid : (e.id == eid) = true := by
    have := List.find?_some hfind
    simpa using this
  have hids : y.id = e.id := by
    have ha : y.id = eid := by simpa using hid
    have hb : e.id = eid := by simpa using heid
    rw [ha, hb]
  exact List.inj_on_of_nodup_map hn hy hmem hids

theorem valueInv_updateEngagement {s : DBState} (h3 : ValueInv s) (eid : Nat)
    {f : Engagement → Engagement}
    (hf : ∀ y ∈ s.engagements, (y.id == eid) = true →
      (f y).monetisation_value ≠ 0 →
        (f y).status = CompStatus.completed ∧
        (f y).approval_status = ApprovalStatus.approved) :
    ValueInv (updateEngagement s eid f) := by
  intro x hx
  simp only [updateEngagement, List.mem_map] at hx
  obtain ⟨y, hy, hxy⟩ := hx
  subst hxy
  by_cases hc : (y.id == eid) = true
  · rw [if_pos hc]
    exact hf y hy hc
  · rw [if_neg hc]
    exact h3 y hy

theorem inv_updateEngagement {s : DBState} (h : Inv s) (eid : Nat)
    {f : Engagement → Engagement} (hfid : ∀ e, (f e).id = e.id)
    (hf : ∀ y ∈ s.engagements, (y.id == eid) = true →
      (f y).monetisation_value ≠ 0 →
        (f y).status = CompStatus.completed ∧
        (f y).approval_status = ApprovalStatus.approved) :
    Inv (updateEngagement s eid f) :=
  ⟨engIdsOk_updateEngagement h.1 eid hfid, valueInv_updateEngagement h.2 eid hf⟩

theorem runWrites_engagements_eq (ws : List (DBState → DBState))
    (hw : ∀ w ∈ ws, ∀ st : DBState, (w st).engagements = st.engagements ∧
      (w st).next_engagement_id = st.next_engagement_id) (s : DBState) :
    (runWrites ws s).engagements = s.engagements ∧
    (runWrites ws s).next_engagement_id = s.next_engagement_id := by
  induction ws generalizing s with
  | nil => exact ⟨rfl, rfl⟩
  | cons w ws ih =>
      have hrest := ih (fun w' hm => hw w' (List.mem_cons_of_mem _ hm)) (w s)
      have hthis := hw w (List.mem_cons_self _ _) s
      exact ⟨hrest.1.trans hthis.1, hrest.2.trans hthis.2⟩

theorem deleteTaskWrites_preserve (s : DBState) (tid : Nat) (reason : String) :
    ∀ w ∈ deleteTaskWrites s tid reason, ∀ st : DBState,
      (w st).engagements = st.engagements ∧
      (w st).next_engagement_id = st.next_engagement_id := by
  intro w hw st
  unfold deleteTaskWrites at hw
  rcases List.mem_append.mp hw with h1 | h2
  · obtain ⟨e, he, hwe⟩ := List.mem_map.mp h1
    rw [← hwe]
    exact ⟨rfl, rfl⟩
  · have hw2 : w = fun st => updateTask st tid
        (fun t => { t with is_deleted := true }) := by
      simpa using h2
    rw [hw2]
    exact ⟨rfl, rfl⟩

/-- Every handler invocation preserves the invariant. -/
theorem inv_step (op : Op) {s : DBState} (h : Inv s) : Inv (step op s) := by
  cases op with
  | createTask ngo f =>
      show Inv (createTask s ngo f)
      unfold createTask
      split
      · exact h
      · exact inv_of_engagements_eq rfl rfl h
  | createVolunteer vid =>
      show Inv (createVolunteer s vid)
      unfold createVolunteer
      split
      · exact h
      · exact inv_of_engagements_eq rfl rfl h
  | applyT tid vid =>
      show Inv (match applyTask s tid vid with
        | .ok s2 => s2
        | .error _ => s)
      split
      · rename_i s2 heq
        unfold applyTask at heq
        split at heq
        · exact absurd heq (by simp)
        · rename_i t hft
          split at heq
          · exact absurd heq (by simp)
          · split at heq
            · exact absurd heq (by simp)
            · split at heq
              · exact absurd heq (by simp)
              · split at heq
                · exact absurd heq (by simp)
                · cases heq
                  refine ⟨⟨?_, ?_⟩, ?_⟩
                  · intro e hm
                    rcases List.mem_append.mp hm with hm1 | hm2
                    · exact Nat.lt_succ_of_lt (h.1.1 e hm1)
                    · have he2 : e = newEngagement s.next_engagement_id tid vid
                          t.hours := by simpa using hm2
                      rw [he2]
                      exact Nat.lt_succ_self _
                  · rw [List.map_append]
                    refine List.Nodup.append h.1.2 (by simp) ?_
                    intro a ha hb
                    obtain ⟨y, hy, hya⟩ := List.mem_map.mp ha
                    have hlt : y.id < s.next_engagement_id := h.1.1 y hy
                    have hab : a = s.next_engagement_id := by
                      simpa [newEngagement] using hb
                    rw [hab] at hya
                    rw [hya] at hlt
                    exact absurd hlt (lt_irrefl _)
                  · intro e hm hv
                    rcases List.mem_append.mp hm with hm1 | hm2
                    · exact h.2 e hm1 hv
                    · have he2 : e = newEngagement s.next_engagement_id tid vid
                          t.hours := by simpa using hm2
                      rw [he2] at hv
                      simp [newEngagement] at hv
      · exact h
  | approve eid =>
      show Inv (approveVolunteer s eid)
      unfold approveVolunteer
      split
      · rename_i e hfind
        split
        · rename_i hpend
          refine inv_updateEngagement h eid (fun x => rfl) ?_
          intro y hy hid hv
          have hye : y = e := row_eq_of_find h.1.2 hfind hy hid
          have hin := h.2 y hy hv
          have hp : e.approval_status = ApprovalStatus.pending := by
            simpa using hpend
          have hya := hin.2
          rw [hye, hp] at hya
          exact absurd hya (by simp)
        · exact h
      · exact h
  | reject eid =>
      show Inv (rejectVolunteer s eid)
      unfold rejectVolunteer
      split
      · rename_i e hfind
        split
        · rename_i hpend
          refine inv_updateEngagement h eid (fun x => rfl) ?_
          intro y hy hid hv
          have hye : y = e := row_eq_of_find h.1.2 hfind hy hid
          have hin := h.2 y hy hv
          have hp : e.approval_status = ApprovalStatus.pending := by
            simpa using hpend
          have hya := hin.2
          rw [hye, hp] at hya
          exact absurd hya (by simp)
        · exact h
      · exact h
  | withdrawPending eid =>
      show Inv (withdrawPendingApplication s eid)
      unfold withdrawPendingApplication
      split
      · split
        · exact inv_deleteEngagement h eid
        · exact h
      · exact h
  | removeRejected eid =>
      show Inv (removeRejectedFromList s eid)
      unfold removeRejectedFromList
      split
      · split
        · split
          · exact inv_deleteEngagement h eid
          · exact h
        · exact h
      · exact h
  | withdrawBrowse eid =>
      show Inv (withdrawApprovedBrowse s eid)
      unfold withdrawApprovedBrowse
      dsimp only
      split
      · split
        · split
          · split
            · split
              · split
                · exact inv_of_engagements_eq rfl rfl
                    (inv_deleteEngagement h eid)
                · exact inv_deleteEngagement h eid
              · exact inv_deleteEngagement h eid
            · exact inv_deleteEngagement h eid
          · exact h
        · exact h
      · exact h
  | withdrawAccTab eid =>
      show Inv (withdrawAcceptedTab s eid)
      unfold withdrawAcceptedTab
      dsimp only
      split
      · split
        · split
          · split
            · split
              · split
                · exact inv_of_engagements_eq rfl rfl
                    (inv_deleteEngagement h eid)
                · exact inv_deleteEngagement h eid
              · exact inv_deleteEngagement h eid
            · exact inv_deleteEngagement h eid
          · exact inv_deleteEngagement h eid
        · exact h
      · exact h
  | removeVol eid =>
      show Inv (removeVolunteer s eid)
      unfold removeVolunteer
      dsimp only
      split
      · split
        · split
          · split
            · split
              · split
                · exact inv_of_engagements_eq rfl rfl
                    (inv_deleteEngagement h eid)
                · exact inv_deleteEngagement h eid
              · exact inv_deleteEngagement h eid
            · exact inv_deleteEngagement h eid
          · exact inv_deleteEngagement h eid
        · exact h
      · exact h
  | complete eid =>
      show Inv (markCompleted s eid)
      unfold markCompleted
      dsimp only
      split
      · rename_i e hfind
        split
        · rename_i happr
          split
          · rename_i t hft
            split
            · split
              · exact inv_of_engagements_eq rfl rfl
                  (inv_updateEngagement h eid (fun x => rfl)
                    (fun y hy hid hv =>
                      ⟨rfl, by
                        have hye : y = e := row_eq_of_find h.1.2 hfind hy hid
                        show y.approval_status = ApprovalStatus.approved
                        rw [hye]
                        simpa using happr⟩))
              · exact h
            · exact inv_updateEngagement h eid (fun x => rfl)
                (fun y hy hid hv =>
                  ⟨rfl, by
                    have hye : y = e := row_eq_of_find h.1.2 hfind hy hid
                    show y.approval_status = ApprovalStatus.approved
                    rw [hye]
                    simpa using happr⟩)
          · exact inv_updateEngagement h eid (fun x => rfl)
              (fun y hy hid hv =>
                ⟨rfl, by
                  have hye : y = e := row_eq_of_find h.1.2 hfind hy hid
                  show y.approval_status = ApprovalStatus.approved
                  rw [hye]
                  simpa using happr⟩)
        · exact h
      · exact h
  | notCompleted eid note =>
      show Inv (markNotCompleted s eid note)
      unfold markNotCompleted
      dsimp only
      split
      · split
        · exact inv_of_engagements_eq rfl rfl
            (inv_updateEngagement h eid (fun x => rfl)
              (fun y hy hid hv => absurd rfl hv))
        · exact h
      · exact h
  | sendCert eid =>
      show Inv (sendCertificate s eid)
      unfold sendCertificate
      dsimp only
      split
      · split
        · exact inv_of_engagements_eq rfl rfl
            (inv_updateEngagement h eid (fun x => rfl)
              (fun y hy hid hv => h.2 y hy hv))
        · exact h
      · exact h
  | renderTasks ngo =>
      show Inv (renderNgoTasks s ngo)
      exact inv_of_engagements_eq rfl rfl h
  | closeTask tid =>
      show Inv (markClosed s tid)
      exact inv_of_engagements_eq rfl rfl h
  | deleteTask tid reason =>
      show Inv (deleteTaskSoft s tid reason)
      unfold deleteTaskSoft
      split
      · have hw := runWrites_engagements_eq (deleteTaskWrites s tid reason)
          (deleteTaskWrites_preserve s tid reason) s
        exact inv_of_engagements_eq hw.1 hw.2 h
      · exact h
  | edit tid f =>
      show Inv (editTask s tid f)
      unfold editTask
      dsimp only
      split
      · exact h
      · split
        · exact h
        · split
          · exact inv_of_engagements_eq rfl rfl h
          · exact inv_of_engagements_eq rfl rfl h

theorem inv_init : Inv DBState.init := by
  refine ⟨⟨?_, ?_⟩, ?_⟩
  · intro e hm
    simp [DBState.init] at hm
  · simp [DBState.init]
  · intro e hm
    simp [DBState.init] at hm

theorem reachable_inv {s : DBState} (h : Reachable s) : Inv s := by
  induction h with
  | init => exact inv_init
  | step op _ ih => exact inv_step op ih

/-- C5: in every reachable state, an engagement whose completion-status is
not completed or whose approval-status is not approved has monetization
value 0 — equivalently, a non-zero value occurs only on completed,
approved engagements (engagements start at 0 and mark-not-completed
forces the value back to 0). -/
theorem value_zero_unless_completed_approved {s : DBState}
    (h : Reachable s) :
    ∀ e ∈ s.engagements,
      (e.status ≠ CompStatus.completed ∨
        e.approval_status ≠ ApprovalStatus.approved) →
      e.monetisation_value = 0 := by
  intro e hm hne
  by_contra hv
  obtain ⟨hc, ha⟩ := (reachable_inv h).2 e hm hv
  cases hne with
  | inl h1 => exact h1 hc
  | inr h2 => exact h2 ha

/-- Witness for C5: the rejected engagement of the demo trace has value 0. -/
theorem value_zero_witness :
    Engagement.monetisation_value
      { id := 1, task_id := 1, volunteer_id := 1
        approval_status := ApprovalStatus.rejected, status := CompStatus.accepted
        completion_note := none, certificate_pushed := false
        monetisation_value := 0, hours_committed := 4 } = 0 :=
  value_zero_unless_completed_approved (runTrace_reachable c9Pre) _ (by decide)
    (Or.inr (by decide))

end CommunityConnect
